import Mathlib

/-!
Verification development for the `openai-rtc-demo` repository.

The development shallowly embeds the parts of the TypeScript source that the
specification talks about:

* `src/functions/index.ts` — the `FunctionRegistry` class (registration,
  definition listing, execution with error capture);
* `src/app/page.tsx` — the control-channel event dispatcher (`dc.onmessage`),
  the in-page `executeFunction` mock, the function-response emission, and the
  worker `ERROR`-message handler;
* `src/workers/webrtc.worker.ts` — `getRemoteDescription` (the signaling
  exchange) and the worker's `GET_REMOTE_DESCRIPTION` message handler.

JavaScript runtime values that flow through the dispatcher are modelled by the
inductive `JsVal` (the image of `JSON.parse` plus `undefined`, which property
access on a non-object produces).  Platform effects are modelled as explicit
oracles: the outcome of `JSON.parse` on a control-channel frame travels with
the frame (`Frame.event` carries the parsed value, `Frame.malformed` marks a
frame on which `JSON.parse` throws), the outcome of `JSON.parse` on the
`function.arguments` string travels with the frame as well, and the
`Math.random` / `Date` draws used by the weather mock are a `RandomDraws`
record.  Asynchronous promise resolution is modelled by an explicit pending
list: dispatching a function call appends the started invocation to
`ClientState.pending`, and a separate `Action.settle` step runs the
`.then`/`.catch` continuation for one pending invocation, so an interleaving
of frames and settlements is a list of `Action`s.
-/

/-- Model of a JavaScript runtime value as seen by the dispatcher: the image
of `JSON.parse` together with `undefined` (the result of reading an absent
property).  Numbers are modelled as integers; no claim depends on
floating-point behaviour. -/
inductive JsVal where
  | undefined
  | null
  | bool (b : Bool)
  | num (n : Int)
  | str (s : String)
  | arr (elems : List JsVal)
  | obj (fields : List (String × JsVal))

mutual

/-- Structural equality of `JsVal`s.  Used only for JS `Map` key comparison
(SameValueZero); the keys that actually occur are primitives, on which
SameValueZero is value equality. -/
def JsVal.beq : JsVal → JsVal → Bool
  | .undefined, .undefined => true
  | .null, .null => true
  | .bool a, .bool b => a == b
  | .num a, .num b => a == b
  | .str a, .str b => a == b
  | .arr a, .arr b => beqValList a b
  | .obj a, .obj b => beqFieldList a b
  | _, _ => false

/-- Elementwise `JsVal.beq` on lists. -/
def beqValList : List JsVal → List JsVal → Bool
  | [], [] => true
  | a :: as, b :: bs => a.beq b && beqValList as bs
  | _, _ => false

/-- Elementwise `JsVal.beq` on association lists. -/
def beqFieldList : List (String × JsVal) → List (String × JsVal) → Bool
  | [], [] => true
  | (k, a) :: as, (l, b) :: bs => k == l && a.beq b && beqFieldList as bs
  | _, _ => false

end

/-- First-match lookup in an object's field list (`JSON.parse` never produces
duplicate keys, so first-match and last-match agree). -/
def getField : List (String × JsVal) → String → JsVal
  | [], _ => .undefined
  | (k', v) :: rest, k => if k' = k then v else getField rest k

/-- JS property read `v[k]`: a field of an object, `undefined` otherwise.
(The dispatcher only reads properties of values it has checked are not
`null`/`undefined`, where a read would throw.) -/
def JsVal.get : JsVal → String → JsVal
  | .obj fields, k => getField fields k
  | _, _ => .undefined

/-- JS strict equality `v === s` against a string literal: true exactly when
`v` is that string. -/
def isStrEq (v : JsVal) (s : String) : Bool :=
  match v with
  | .str t => t == s
  | _ => false

/-- JS `String(v)` conversion as used in template literals; only primitive
cases are exercised by the code paths the claims touch, composite values get
the JS placeholder forms. -/
def jsDisplay : JsVal → String
  | .undefined => "undefined"
  | .null => "null"
  | .bool true => "true"
  | .bool false => "false"
  | .num n => toString n
  | .str s => s
  | .arr _ => ""
  | .obj _ => "[object Object]"

namespace Functions

/-- `src/functions/index.ts`: one property of a function-parameter schema. -/
structure ParamProperty where
  type : String
  description : String
  enum : Option (List String)

/-- `src/functions/index.ts`: the `parameters` schema of a definition. -/
structure FunctionParameters where
  type : String
  properties : List (String × ParamProperty)
  required : Option (List String)

/-- `src/functions/index.ts`: `FunctionDefinition`. -/
structure FunctionDefinition where
  name : String
  description : String
  parameters : FunctionParameters

/-- `src/functions/index.ts`: `FunctionCall` as typed there (`id` and `name`
are strings, `arguments` an already-parsed record). -/
structure FunctionCall where
  id : String
  name : String
  arguments : JsVal

/-- `src/functions/index.ts`: `FunctionResult`. -/
structure FunctionResult where
  id : String
  name : String
  result : JsVal
  error : Option String

/-- `src/functions/index.ts`: `FunctionHandler = (args) => Promise<any>`.
A settled handler promise either fulfils with a value or rejects; rejection is
modelled as `.error msg` where `msg` is the message `execute` extracts
(`error instanceof Error ? error.message : String(error)`). -/
def FunctionHandler := JsVal → Except String JsVal

/-- One stored registry entry: `{ definition, handler }`. -/
structure RegistryEntry where
  definition : FunctionDefinition
  handler : FunctionHandler

/-- The private `functions: Map<string, {definition, handler}>`, as an
insertion-ordered association list (JS `Map` iteration order). -/
abbrev FunctionRegistry := List (String × RegistryEntry)

/-- JS `Map.get`. -/
def lookupEntry : FunctionRegistry → String → Option RegistryEntry
  | [], _ => none
  | (k, e) :: rest, n => if k = n then some e else lookupEntry rest n

/-- JS `Map.set`: replace the value in place when the key is present,
append otherwise. -/
def mapSetEntry : FunctionRegistry → String → RegistryEntry → FunctionRegistry
  | [], k, e => [(k, e)]
  | (k', e') :: rest, k, e =>
      if k' = k then (k', e) :: rest else (k', e') :: mapSetEntry rest k e

/-- `FunctionRegistry.register`: `this.functions.set(definition.name,
{ definition, handler })`. -/
def FunctionRegistry.register (reg : FunctionRegistry)
    (d : FunctionDefinition) (h : FunctionHandler) : FunctionRegistry :=
  mapSetEntry reg d.name ⟨d, h⟩

/-- `FunctionRegistry.getAllDefinitions`:
`Array.from(this.functions.values()).map(f => f.definition)`. -/
def FunctionRegistry.getAllDefinitions (reg : FunctionRegistry) :
    List FunctionDefinition :=
  reg.map (fun p => p.2.definition)

/-- How many definitions in a list carry the name `n`. -/
def countName (ds : List FunctionDefinition) (n : String) : Nat :=
  (ds.filter (fun d => d.name == n)).length

/-- `FunctionRegistry.execute`: unknown name yields an error result; a handler
fulfilment yields a success result; a handler rejection is caught and recorded
as the error field.  `execute` itself is total — it never throws. -/
def FunctionRegistry.execute (reg : FunctionRegistry) (fc : FunctionCall) :
    FunctionResult :=
  match lookupEntry reg fc.name with
  | none =>
      { id := fc.id, name := fc.name, result := .null,
        error := some ("Function '" ++ fc.name ++ "' not found") }
  | some f =>
      match f.handler fc.arguments with
      | .ok r => { id := fc.id, name := fc.name, result := r, error := none }
      | .error msg =>
          { id := fc.id, name := fc.name, result := .null, error := some msg }

/-- A first sample definition for the name `get_weather`. -/
def sampleDef1 : FunctionDefinition :=
  ⟨"get_weather", "first version", ⟨"object", [], none⟩⟩

/-- A second sample definition for the same name. -/
def sampleDef2 : FunctionDefinition :=
  ⟨"get_weather", "second version", ⟨"object", [], some ["location"]⟩⟩

/-- A first sample handler. -/
def sampleHandler1 : FunctionHandler := fun _ => .ok .null

/-- A second sample handler, distinguishable from the first by its value. -/
def sampleHandler2 : FunctionHandler := fun _ => .ok (.str "updated")

end Functions

namespace Page

/-- `src/app/page.tsx`: random/clock draws consumed by one run of the
`get_weather` mock (each field is the value of the corresponding
`Math.floor(Math.random() * _) + _` expression, the drawn condition string,
and `new Date().toISOString()`). -/
structure RandomDraws where
  celsiusTemp : Int
  fahrenheitTemp : Int
  condition : String
  humidity : Int
  windSpeed : Int
  timestampIso : String

/-- `src/app/page.tsx`: `Message.role`. -/
inductive Role where
  | user
  | assistant
deriving DecidableEq

/-- `src/app/page.tsx`: `Message` (timestamp abstracted to a logical clock
tick). -/
structure Message where
  role : Role
  content : String
  timestamp : Nat

/-- A function call as the dispatcher actually builds it
(`{ id: e.id, name: e.function.name, arguments: JSON.parse(...) }`); the
fields are arbitrary runtime values, the TS annotations are not enforced. -/
structure FunctionCall where
  id : JsVal
  name : JsVal
  arguments : JsVal

/-- `src/app/page.tsx`: `FunctionResult`. -/
structure FunctionResult where
  id : JsVal
  name : JsVal
  result : JsVal
  error : Option String

/-- One entry of the `activeFunctions` map: `{ call, startTime }`. -/
structure ActiveEntry where
  call : FunctionCall
  startTime : Nat

/-- The outbound `response.function.response` frame built in the `.then`
continuation (`{ type, function: { name, response }, id }`). -/
structure FunctionResponseEvent where
  id : JsVal
  name : JsVal
  response : JsVal

/-- Debug-log entries, abstracted to tags (the log text is irrelevant to
every claim; only which log statement ran matters). -/
inductive LogEntry where
  | receivedEvent
  | functionCallReceived
  | processFunctionCallError
  | executingFunction
  | errorParsingEvent
  | sendingFunctionResponse
  | executeFunctionError

/-- The React state of `WebRTCClient` that the claims are about, plus the
bookkeeping needed to model promises: `pending` holds started but unsettled
`executeFunction` invocations, `invocations` records every handler invocation
ever started, `sent` the `response.function.response` frames written to the
data channel, `channelOpen` the value of
`dataChannel.current?.readyState === "open"`, and `clock` a logical clock
supplying `new Date()`. -/
structure ClientState where
  messages : List Message
  transcripts : List String
  debugLog : List LogEntry
  activeFunctions : List (JsVal × ActiveEntry)
  completedFunctions : List FunctionResult
  pending : List FunctionCall
  invocations : List FunctionCall
  sent : List FunctionResponseEvent
  status : String
  error : Option String
  isDataChannelReady : Bool
  channelOpen : Bool
  clock : Nat

/-- The state right after the component mounts. -/
def initialState : ClientState :=
  { messages := [], transcripts := [], debugLog := [], activeFunctions := [],
    completedFunctions := [], pending := [], invocations := [], sent := [],
    status := "Initializing...", error := none, isDataChannelReady := false,
    channelOpen := false, clock := 0 }

/-- The state after `dc.onopen` fired (data channel ready, status `Ready`). -/
def readyChannelState : ClientState :=
  { initialState with isDataChannelReady := true, status := "Ready",
                      channelOpen := true }

/-- JS `Map.set` on the `activeFunctions` map (key comparison is
SameValueZero, structural on the primitive keys that occur). -/
def activeSet (m : List (JsVal × ActiveEntry)) (k : JsVal) (e : ActiveEntry) :
    List (JsVal × ActiveEntry) :=
  match m with
  | [] => [(k, e)]
  | (k', e') :: rest =>
      if k'.beq k then (k', e) :: rest else (k', e') :: activeSet rest k e

/-- JS `Map.delete` on the `activeFunctions` map. -/
def activeDelete (m : List (JsVal × ActiveEntry)) (k : JsVal) :
    List (JsVal × ActiveEntry) :=
  match m with
  | [] => []
  | (k', e') :: rest =>
      if k'.beq k then rest else (k', e') :: activeDelete rest k

/-- An inbound control-channel frame, at the granularity the dispatcher
distinguishes: `malformed` marks a frame whose text makes `JSON.parse` throw;
`event v argsParse` carries the parsed value `v` together with the outcome
`argsParse` that `JSON.parse(v.function.arguments)` would have (consulted only
on the function-call path; `.error` means that parse throws). -/
inductive Frame where
  | malformed
  | event (v : JsVal) (argsParse : Except Unit JsVal)

/-- Construction of the dispatched function call
`{ id: e.id, name: e.function.name, arguments: JSON.parse(e.function.arguments) }`
inside the inner `try`: reading `.name` off `undefined`/`null` throws, a
throwing arguments parse aborts, otherwise the call record is built. -/
def buildFunctionCall (v : JsVal) (argsParse : Except Unit JsVal) :
    Except Unit FunctionCall :=
  match v.get "function" with
  | .undefined => .error ()
  | .null => .error ()
  | fobj =>
      match argsParse with
      | .error _ => .error ()
      | .ok args => .ok { id := v.get "id", name := fobj.get "name", arguments := args }

/-- The `response.text.delta` guard:
`e.type === "response.text.delta" && typeof e.delta === "string"`. -/
def deltaOf (v : JsVal) : Option String :=
  if isStrEq (v.get "type") "response.text.delta" then
    match v.get "delta" with
    | .str d => some d
    | _ => none
  else none

/-- The `response.audio_transcript.done` guard:
`e.type === "response.audio_transcript.done" && typeof e.transcript === "string"`. -/
def transcriptOf (v : JsVal) : Option String :=
  if isStrEq (v.get "type") "response.audio_transcript.done" then
    match v.get "transcript" with
    | .str t => some t
    | _ => none
  else none

/-- The `setMessages` functional update of the text-delta branch: append the
delta to the last message when it is an assistant message, otherwise start a
new assistant message stamped with the current clock. -/
def appendAssistantDelta (msgs : List Message) (d : String) (now : Nat) :
    List Message :=
  match msgs.getLast? with
  | some m =>
      if m.role = .assistant then
        msgs.dropLast ++ [{ m with content := m.content ++ d }]
      else
        msgs ++ [{ role := .assistant, content := d, timestamp := now }]
  | none => msgs ++ [{ role := .assistant, content := d, timestamp := now }]

/-- `dc.onmessage` of `src/app/page.tsx`, one inbound frame.  A `JSON.parse`
failure is caught by the outer `try` (one log entry, no other change).  A
parsed `null` makes the later `.type` read throw inside the same `try` (two
log entries, no other change).  The `response.function.call` branch builds the
call inside the inner `try`, records it in `activeFunctions`, and starts
`executeFunction` (modelled by appending to `pending`/`invocations`); its
`.then`/`.catch` continuation is `resolvePending`, run by a later
`Action.settle`.  Text deltas and transcripts update their lists; anything
else only logs. -/
def dcOnMessage (st : ClientState) (f : Frame) : ClientState :=
  match f with
  | .malformed =>
      { st with debugLog := st.debugLog ++ [.errorParsingEvent],
                clock := st.clock + 1 }
  | .event .null _ =>
      { st with debugLog := st.debugLog ++ [.receivedEvent, .errorParsingEvent],
                clock := st.clock + 1 }
  | .event v argsParse =>
      if isStrEq (v.get "type") "response.function.call" then
        match buildFunctionCall v argsParse with
        | .error _ =>
            { st with
              debugLog := st.debugLog ++
                [.receivedEvent, .functionCallReceived, .processFunctionCallError],
              clock := st.clock + 1 }
        | .ok fc =>
            { st with
              debugLog := st.debugLog ++
                [.receivedEvent, .functionCallReceived, .executingFunction],
              activeFunctions :=
                activeSet st.activeFunctions fc.id ⟨fc, st.clock⟩,
              invocations := st.invocations ++ [fc],
              pending := st.pending ++ [fc],
              clock := st.clock + 1 }
      else
        match deltaOf v with
        | some d =>
            { st with
              debugLog := st.debugLog ++ [.receivedEvent],
              messages := appendAssistantDelta st.messages d st.clock,
              clock := st.clock + 1 }
        | none =>
            match transcriptOf v with
            | some t =>
                { st with
                  debugLog := st.debugLog ++ [.receivedEvent],
                  transcripts := st.transcripts ++ [t],
                  clock := st.clock + 1 }
            | none =>
                { st with debugLog := st.debugLog ++ [.receivedEvent],
                          clock := st.clock + 1 }

/-- The weather payload built by the `get_weather` branch of the in-page
`executeFunction` mock. -/
def weatherResult (args : JsVal) (d : RandomDraws) : JsVal :=
  let location := args.get "location"
  let units := match args.get "units" with
               | .undefined => JsVal.str "celsius"
               | u => u
  .obj [("location", location),
        ("temperature",
          .num (if isStrEq units "celsius" then d.celsiusTemp
                else d.fahrenheitTemp)),
        ("condition", .str d.condition),
        ("humidity", .num d.humidity),
        ("windSpeed", .num d.windSpeed),
        ("units", units),
        ("timestamp", .str d.timestampIso)]

/-- `src/app/page.tsx` `executeFunction`: the `get_weather` branch
destructures the parsed arguments — which throws (the promise rejects,
`.error ()`) when they are `null` — and resolves with a weather payload; any
other name resolves with a null result and the error field set.  Nothing in
the body catches, so these are the only outcomes. -/
def executeFunction (fc : FunctionCall) (d : RandomDraws) :
    Except Unit FunctionResult :=
  if isStrEq fc.name "get_weather" then
    match fc.arguments with
    | .null => .error ()
    | .undefined => .error ()
    | args =>
        .ok { id := fc.id, name := fc.name, result := weatherResult args d,
              error := none }
  else
    .ok { id := fc.id, name := fc.name, result := .null,
          error := some ("未実装の関数: " ++ jsDisplay fc.name) }

/-- The outbound response frame built in the `.then` continuation:
`response: result.error ? { error: result.error } : result.result` (an empty
error string is falsy in JS, hence treated like no error). -/
def mkResponse (r : FunctionResult) : FunctionResponseEvent :=
  { id := r.id, name := r.name,
    response :=
      match r.error with
      | some e => if e = "" then r.result else .obj [("error", .str e)]
      | none => r.result }

/-- The `.then`/`.catch` continuation of `executeFunction(functionCall)`:
on fulfilment append the result to `completedFunctions`, delete the id from
`activeFunctions`, and — when the data channel is open — send the response
frame; on rejection only log (`.catch`: no response, no cleanup). -/
def resolvePending (st : ClientState) (fc : FunctionCall) (d : RandomDraws) :
    ClientState :=
  match executeFunction fc d with
  | .error _ =>
      { st with debugLog := st.debugLog ++ [.executeFunctionError],
                clock := st.clock + 1 }
  | .ok result =>
      let st1 := { st with
        completedFunctions := st.completedFunctions ++ [result],
        activeFunctions := activeDelete st.activeFunctions fc.id }
      if st1.channelOpen then
        { st1 with debugLog := st1.debugLog ++ [.sendingFunctionResponse],
                   sent := st1.sent ++ [mkResponse result],
                   clock := st.clock + 1 }
      else { st1 with clock := st.clock + 1 }

/-- One step of the session: either an inbound frame is dispatched, or the
`i`-th still-pending `executeFunction` promise settles (consuming the random
draws `d`). -/
inductive Action where
  | recv (f : Frame)
  | settle (i : Nat) (d : RandomDraws)

/-- Interpret one `Action`. -/
def stepAction (st : ClientState) (a : Action) : ClientState :=
  match a with
  | .recv f => dcOnMessage st f
  | .settle i d =>
      match st.pending[i]? with
      | none => st
      | some fc => resolvePending { st with pending := st.pending.eraseIdx i } fc d

/-- Dispatch a list of frames in arrival order. -/
def runFrames (st : ClientState) (fs : List Frame) : ClientState :=
  fs.foldl dcOnMessage st

/-- Run a list of session actions in order. -/
def runActions (st : ClientState) (as : List Action) : ClientState :=
  as.foldl stepAction st

/-- The wire shape of an inbound `response.function.call` event:
`{ type, id, function: { name, arguments } }`. -/
def functionCallFrame (id name rawArgs : JsVal) : JsVal :=
  .obj [("type", .str "response.function.call"), ("id", id),
        ("function", .obj [("name", name), ("arguments", rawArgs)])]

/-- The wire shape of an inbound `response.text.delta` event. -/
def deltaFrame (d : String) : Frame :=
  .event (.obj [("type", .str "response.text.delta"), ("delta", .str d)])
    (.ok .null)

/-- The wire shape of an inbound `response.audio_transcript.done` event. -/
def transcriptFrame (t : String) : Frame :=
  .event (.obj [("type", .str "response.audio_transcript.done"),
                ("transcript", .str t)])
    (.ok .null)

/-- The `ERROR` case of `workerRef.current.onmessage`:
`setError(workerError || "Unknown error occurred"); setStatus("Error")`
(the `||` falls back on an absent or empty message). -/
def onWorkerError (st : ClientState) (workerError : Option String) :
    ClientState :=
  let msg := match workerError with
             | some e => if e = "" then "Unknown error occurred" else e
             | none => "Unknown error occurred"
  { st with error := some msg, status := "Error" }

/-- Last message of the conversation is absent or not an assistant message. -/
def lastRoleNotAssistant (msgs : List Message) : Prop :=
  match msgs.getLast? with
  | some m => m.role ≠ .assistant
  | none => True

/-- The parsed arguments object of the sample `get_weather` call of §8 of the
spec. -/
def sampleArgs : JsVal := .obj [("location", .str "Tokyo")]

/-- The sample `function-call` event of §8 of the spec:
`id "a1"`, `name "get_weather"`, arguments the JSON text
`\x7b"location":"Tokyo"\x7d`. -/
def sampleCallEvent : JsVal :=
  functionCallFrame (.str "a1") (.str "get_weather")
    (.str "\x7b\"location\":\"Tokyo\"\x7d")

/-- The sample call event as an inbound frame (its arguments text parses to
`sampleArgs`). -/
def sampleCallFrame : Frame := .event sampleCallEvent (.ok sampleArgs)

/-- A `function-call` event whose `arguments` text is the valid JSON `"null"`
(so the inner parse succeeds and yields `null`). -/
def nullArgsCallFrame : Frame :=
  .event (functionCallFrame (.str "a1") (.str "get_weather") (.str "null"))
    (.ok .null)

/-- Fixed draws for the weather mock, used for concrete runs. -/
def sampleDraws : RandomDraws :=
  { celsiusTemp := 20, fahrenheitTemp := 70, condition := "晴れ",
    humidity := 40, windSpeed := 10,
    timestampIso := "2026-10-12T00:00:00.000Z" }

/-- The dispatched form of the sample call. -/
def sampleCall : FunctionCall := ⟨.str "a1", .str "get_weather", sampleArgs⟩

/-- The result the weather mock produces for the sample call under
`sampleDraws`. -/
def sampleOkResult : FunctionResult :=
  ⟨.str "a1", .str "get_weather", weatherResult sampleArgs sampleDraws, none⟩

end Page

namespace RtcWorker

/-- The observable part of a `fetch` response in
`src/workers/webrtc.worker.ts`: `ok`, `status`, and the body text. -/
structure HttpResponse where
  ok : Bool
  status : Nat
  body : String

/-- The message of the `Error` thrown by `getRemoteDescription` on a
non-success response:
`` `Failed to get remote description: ${status} - ${body}` ``. -/
def signalingErrorMessage (status : Nat) (body : String) : String :=
  "Failed to get remote description: " ++ toString status ++ " - " ++ body

/-- `getRemoteDescription`: POST the offer, fail with the status/body error
when the response is not ok, otherwise return the answer body verbatim. -/
def getRemoteDescription (offer token : String) (resp : HttpResponse) :
    Except String String :=
  if resp.ok then .ok resp.body
  else .error (signalingErrorMessage resp.status resp.body)

/-- The single signaling request that the handler issues (offer body,
bearer token). -/
structure SignalingRequest where
  offer : String
  token : String

/-- A `postMessage` from the worker to the main thread, at the granularity
the claims need. -/
inductive WorkerPost where
  | debugLog
  | remoteDescriptionReceived (sdp : String)
  | errorPost (msg : String)

/-- The `GET_REMOTE_DESCRIPTION` case of the worker's `onmessage` handler:
exactly one fetch is issued (no retry); on success the answer is posted back,
on failure the `catch` posts exactly one `ERROR` message carrying the thrown
error's message.  Returns the issued requests and the posted messages. -/
def handleGetRemoteDescription (offer token : String) (resp : HttpResponse) :
    List SignalingRequest × List WorkerPost :=
  ([⟨offer, token⟩],
   match getRemoteDescription offer token resp with
   | .ok answer =>
       [.debugLog, .debugLog, .debugLog, .debugLog, .debugLog,
        .remoteDescriptionReceived answer]
   | .error msg =>
       [.debugLog, .debugLog, .debugLog, .debugLog, .errorPost msg])

/-- Is a worker post the `ERROR` message? -/
def WorkerPost.isErrorPost : WorkerPost → Bool
  | .errorPost _ => true
  | _ => false

/-- Is a worker post the `REMOTE_DESCRIPTION_RECEIVED` message? -/
def WorkerPost.isRemoteDescription : WorkerPost → Bool
  | .remoteDescriptionReceived _ => true
  | _ => false

end RtcWorker

namespace Page

lemma appendAssistantDelta_new (msgs : List Message) (d : String) (now : Nat)
    (h : lastRoleNotAssistant msgs) :
    appendAssistantDelta msgs d now
      = msgs ++ [{ role := .assistant, content := d, timestamp := now }] := by
  unfold lastRoleNotAssistant at h
  unfold appendAssistantDelta
  cases hl : msgs.getLast? with
  | none => rfl
  | some m =>
      rw [hl] at h
      simp [h]

lemma appendAssistantDelta_concat (pre : List Message) (m : Message)
    (hm : m.role = .assistant) (d : String) (now : Nat) :
    appendAssistantDelta (pre ++ [m]) d now
      = pre ++ [{ m with content := m.content ++ d }] := by
  unfold appendAssistantDelta
  rw [List.getLast?_concat]
  simp [hm]

lemma runFrames_cons (st : ClientState) (f : Frame) (fs : List Frame) :
    runFrames st (f :: fs) = runFrames (dcOnMessage st f) fs := rfl

lemma messages_delta_step (st : ClientState) (d : String) :
    (dcOnMessage st (deltaFrame d)).messages
      = appendAssistantDelta st.messages d st.clock := rfl

lemma transcript_step (st : ClientState) (t : String) :
    dcOnMessage st (transcriptFrame t)
      = { st with transcripts := st.transcripts ++ [t],
                  debugLog := st.debugLog ++ [.receivedEvent],
                  clock := st.clock + 1 } := rfl

lemma runDeltas_continuation (ds : List String) :
    ∀ (st : ClientState) (pre : List Message) (m : Message),
      m.role = .assistant → st.messages = pre ++ [m] →
      (runFrames st (ds.map deltaFrame)).messages
        = pre ++ [{ m with content := ds.foldl (fun a b => a ++ b) m.content }] := by
  induction ds with
  | nil =>
      intro st pre m _ hmsg
      simpa [runFrames] using hmsg
  | cons d ds ih =>
      intro st pre m hm hmsg
      rw [List.map_cons, runFrames_cons]
      have hstep : (dcOnMessage st (deltaFrame d)).messages
          = pre ++ [{ m with content := m.content ++ d }] := by
        rw [messages_delta_step, hmsg, appendAssistantDelta_concat pre m hm]
      exact ih (dcOnMessage st (deltaFrame d)) pre
        { m with content := m.content ++ d } hm hstep

end Page

/-- C1: dispatching a nonempty sequence of `response.text.delta` frames whose
`delta` fields are strings, starting from a conversation whose last message is
not an assistant message, produces exactly one new assistant message whose
content is the concatenation of the deltas in arrival order, leaving all
earlier messages unchanged. -/
theorem c1_text_delta_concatenation (st : Page.ClientState) (ds : List String)
    (hne : ds ≠ []) (hlast : Page.lastRoleNotAssistant st.messages) :
    (Page.runFrames st (ds.map Page.deltaFrame)).messages
      = st.messages ++ [{ role := .assistant,
                          content := ds.foldl (fun a b => a ++ b) "",
                          timestamp := st.clock }] := by
  cases ds with
  | nil => exact absurd rfl hne
  | cons d ds =>
      rw [List.map_cons, Page.runFrames_cons]
      have hstep : (Page.dcOnMessage st (Page.deltaFrame d)).messages
          = st.messages ++ [{ role := .assistant, content := d,
                              timestamp := st.clock }] := by
        rw [Page.messages_delta_step,
          Page.appendAssistantDelta_new st.messages d st.clock hlast]
      exact Page.runDeltas_continuation ds (Page.dcOnMessage st (Page.deltaFrame d))
        st.messages { role := .assistant, content := d, timestamp := st.clock }
        rfl hstep

/-- Witness for C1 at a concrete input: two deltas `"Hel"`, `"lo"` from the
initial (empty) conversation. -/
theorem c1_text_delta_concatenation_witness :
    (["Hel", "lo"] : List String) ≠ [] ∧
    Page.lastRoleNotAssistant Page.initialState.messages ∧
    (Page.runFrames Page.initialState ((["Hel", "lo"] : List String).map Page.deltaFrame)).messages
      = Page.initialState.messages
        ++ [{ role := .assistant,
              content := (["Hel", "lo"] : List String).foldl (fun a b => a ++ b) "",
              timestamp := Page.initialState.clock }] :=
  ⟨by simp, by simp [Page.lastRoleNotAssistant, Page.initialState],
   c1_text_delta_concatenation Page.initialState ["Hel", "lo"] (by simp)
     (by simp [Page.lastRoleNotAssistant, Page.initialState])⟩

/-- C2 counterexample: a `transcript-done` event interleaved between two
assistant text deltas does NOT start a new message — the second delta still
appends to the same assistant message, so the conversation ends with the
single message `"ab"` (one entry, not two). -/
theorem c2_interleaving_counterexample :
    (Page.runFrames Page.initialState
        [Page.deltaFrame "a", Page.transcriptFrame "hello",
         Page.deltaFrame "b"]).messages
      = [{ role := .assistant, content := "ab", timestamp := 0 }] ∧
    (Page.runFrames Page.initialState
        [Page.deltaFrame "a", Page.transcriptFrame "hello",
         Page.deltaFrame "b"]).messages.length = 1 :=
  ⟨rfl, rfl⟩

/-- C2 amended: consecutive assistant text deltas append to the same message
exactly as long as the conversation's last message is still an assistant
message; an interleaved `transcript-done` event does not touch the messages
list and therefore does NOT break the continuation — starting from a state
whose last message is not an assistant message, the run
`delta d1; transcript t; delta d2` yields one assistant message `d1 ++ d2`. -/
theorem c2_amended_continuation (st : Page.ClientState) (t d1 d2 : String)
    (hlast : Page.lastRoleNotAssistant st.messages) :
    (Page.runFrames st
        [Page.deltaFrame d1, Page.transcriptFrame t, Page.deltaFrame d2]).messages
      = st.messages ++ [{ role := .assistant, content := d1 ++ d2,
                          timestamp := st.clock }] := by
  show (Page.dcOnMessage (Page.dcOnMessage (Page.dcOnMessage st
      (Page.deltaFrame d1)) (Page.transcriptFrame t)) (Page.deltaFrame d2)).messages = _
  rw [Page.messages_delta_step, Page.transcript_step]
  show Page.appendAssistantDelta
      (Page.dcOnMessage st (Page.deltaFrame d1)).messages d2 _ = _
  rw [Page.messages_delta_step,
    Page.appendAssistantDelta_new st.messages d1 st.clock hlast,
    Page.appendAssistantDelta_concat st.messages _ rfl]

/-- Witness for the amended C2 at a concrete input. -/
theorem c2_amended_continuation_witness :
    Page.lastRoleNotAssistant Page.initialState.messages ∧
    (Page.runFrames Page.initialState
        [Page.deltaFrame "a", Page.transcriptFrame "hello",
         Page.deltaFrame "b"]).messages
      = Page.initialState.messages
        ++ [{ role := .assistant, content := "a" ++ "b",
              timestamp := Page.initialState.clock }] :=
  ⟨by simp [Page.lastRoleNotAssistant, Page.initialState],
   c2_amended_continuation Page.initialState "hello" "a" "b"
     (by simp [Page.lastRoleNotAssistant, Page.initialState])⟩

/-- C6: a control-channel frame whose text is not valid JSON is caught and
only logged: the messages, transcripts, active/completed function state,
pending invocations, sent frames, status, error, readiness and channel-open
flags are all left unchanged (the equality below is a full-state equality up
to the one new log entry and the clock tick), and the dispatcher is a total
function — the failure never propagates. -/
theorem c6_malformed_frame_harmless (st : Page.ClientState) :
    Page.dcOnMessage st .malformed
      = { st with debugLog := st.debugLog ++ [.errorParsingEvent],
                  clock := st.clock + 1 } := rfl

/-- C8: a `response.audio_transcript.done` frame whose `transcript` is a
string `t` appends exactly the one transcript entry `t` and changes nothing
else of the dispatcher state (messages in particular) besides the debug log
and the clock — regardless of the rest of the state, hence independent of any
text-delta activity before or after. -/
theorem c8_transcript_done_appends_one (st : Page.ClientState) (t : String) :
    Page.dcOnMessage st (Page.transcriptFrame t)
      = { st with transcripts := st.transcripts ++ [t],
                  debugLog := st.debugLog ++ [.receivedEvent],
                  clock := st.clock + 1 } := rfl

namespace Page

lemma dcOnMessage_functionCallFrame (st : ClientState) (id name rawArgs args : JsVal) :
    dcOnMessage st (.event (functionCallFrame id name rawArgs) (.ok args))
      = { st with
          debugLog := st.debugLog ++
            [.receivedEvent, .functionCallReceived, .executingFunction],
          activeFunctions :=
            activeSet st.activeFunctions id ⟨⟨id, name, args⟩, st.clock⟩,
          invocations := st.invocations ++ [⟨id, name, args⟩],
          pending := st.pending ++ [⟨id, name, args⟩],
          clock := st.clock + 1 } := rfl

lemma settle_zero (st : ClientState) (fc : FunctionCall)
    (rest : List FunctionCall) (d : RandomDraws) (hp : st.pending = fc :: rest) :
    stepAction st (.settle 0 d) = resolvePending { st with pending := rest } fc d := by
  simp [stepAction, hp]

lemma resolvePending_ok (st : ClientState) (fc : FunctionCall)
    (d : RandomDraws) (r : FunctionResult)
    (hr : executeFunction fc d = .ok r) (hc : st.channelOpen = true) :
    resolvePending st fc d
      = { st with
          completedFunctions := st.completedFunctions ++ [r],
          activeFunctions := activeDelete st.activeFunctions fc.id,
          debugLog := st.debugLog ++ [.sendingFunctionResponse],
          sent := st.sent ++ [mkResponse r],
          clock := st.clock + 1 } := by
  unfold resolvePending
  rw [hr]
  simp [hc]

lemma resolvePending_reject (st : ClientState) (fc : FunctionCall)
    (d : RandomDraws) (hr : executeFunction fc d = .error ()) :
    resolvePending st fc d
      = { st with debugLog := st.debugLog ++ [.executeFunctionError],
                  clock := st.clock + 1 } := by
  unfold resolvePending
  rw [hr]

lemma executeFunction_ok_fields (fc : FunctionCall) (d : RandomDraws)
    (r : FunctionResult) (h : executeFunction fc d = .ok r) :
    r.id = fc.id ∧ r.name = fc.name := by
  unfold executeFunction at h
  split at h
  · split at h
    · simp at h
    · simp at h
    · injection h with h'
      subst h'
      exact ⟨rfl, rfl⟩
  · injection h with h'
    subst h'
    exact ⟨rfl, rfl⟩

lemma recv_call_projections (st : ClientState) (id name rawArgs args : JsVal) :
    (stepAction st
        (.recv (.event (functionCallFrame id name rawArgs) (.ok args)))).pending
      = st.pending ++ [⟨id, name, args⟩] ∧
    (stepAction st
        (.recv (.event (functionCallFrame id name rawArgs) (.ok args)))).sent
      = st.sent ∧
    (stepAction st
        (.recv (.event (functionCallFrame id name rawArgs) (.ok args)))).invocations
      = st.invocations ++ [⟨id, name, args⟩] ∧
    (stepAction st
        (.recv (.event (functionCallFrame id name rawArgs) (.ok args)))).channelOpen
      = st.channelOpen :=
  ⟨rfl, rfl, rfl, rfl⟩

lemma settle_zero_ok_projections (st : ClientState) (fc : FunctionCall)
    (rest : List FunctionCall) (d : RandomDraws) (r : FunctionResult)
    (hp : st.pending = fc :: rest) (hr : executeFunction fc d = .ok r)
    (hc : st.channelOpen = true) :
    (stepAction st (.settle 0 d)).sent = st.sent ++ [mkResponse r] ∧
    (stepAction st (.settle 0 d)).invocations = st.invocations ∧
    (stepAction st (.settle 0 d)).pending = rest ∧
    (stepAction st (.settle 0 d)).channelOpen = st.channelOpen := by
  rw [settle_zero st fc rest d hp,
    resolvePending_ok { st with pending := rest } fc d r hr hc]
  exact ⟨rfl, rfl, rfl, rfl⟩

end Page

/-- C3 counterexample: two `function-call` frames sharing the id `"a1"`, the
second arriving while the first invocation is still executing (it settles only
later), lead to TWO handler invocations and TWO emitted `function-response`
frames with id `"a1"` — there is no idempotency guard in `dc.onmessage`. -/
theorem c3_duplicate_id_counterexample :
    (Page.runActions Page.readyChannelState
        [.recv Page.sampleCallFrame, .recv Page.sampleCallFrame,
         .settle 0 Page.sampleDraws, .settle 0 Page.sampleDraws]).invocations.length = 2 ∧
    ((Page.runActions Page.readyChannelState
        [.recv Page.sampleCallFrame, .recv Page.sampleCallFrame,
         .settle 0 Page.sampleDraws, .settle 0 Page.sampleDraws]).sent.map
      (fun e => e.id)) = [.str "a1", .str "a1"] :=
  ⟨rfl, rfl⟩

/-- C3 amended: dispatching the same well-formed `function-call` event twice
(the duplicate arriving while the first invocation is still pending) starts
two handler invocations and, once both settle with the channel open, emits two
`function-response` frames carrying the shared id; the duplicate is neither
detected nor ignored (its `Map.set` merely overwrites the active entry). -/
theorem c3_duplicate_id_amended (st : Page.ClientState)
    (id name rawArgs args : JsVal) (d1 d2 : Page.RandomDraws)
    (r1 r2 : Page.FunctionResult)
    (hp : st.pending = []) (hc : st.channelOpen = true)
    (h1 : Page.executeFunction ⟨id, name, args⟩ d1 = .ok r1)
    (h2 : Page.executeFunction ⟨id, name, args⟩ d2 = .ok r2) :
    (Page.runActions st
        [.recv (.event (Page.functionCallFrame id name rawArgs) (.ok args)),
         .recv (.event (Page.functionCallFrame id name rawArgs) (.ok args)),
         .settle 0 d1, .settle 0 d2]).invocations
      = st.invocations ++ [⟨id, name, args⟩, ⟨id, name, args⟩] ∧
    (Page.runActions st
        [.recv (.event (Page.functionCallFrame id name rawArgs) (.ok args)),
         .recv (.event (Page.functionCallFrame id name rawArgs) (.ok args)),
         .settle 0 d1, .settle 0 d2]).sent
      = st.sent ++ [Page.mkResponse r1, Page.mkResponse r2] ∧
    r1.id = id ∧ r2.id = id := by
  have hid1 := (Page.executeFunction_ok_fields _ d1 r1 h1).1
  have hid2 := (Page.executeFunction_ok_fields _ d2 r2 h2).1
  obtain ⟨a1p, a1s, a1i, a1c⟩ := Page.recv_call_projections st id name rawArgs args
  obtain ⟨a2p, a2s, a2i, a2c⟩ := Page.recv_call_projections
    (Page.stepAction st
      (.recv (.event (Page.functionCallFrame id name rawArgs) (.ok args))))
    id name rawArgs args
  rw [a1p, hp] at a2p
  rw [a1s] at a2s
  rw [a1i] at a2i
  rw [a1c, hc] at a2c
  obtain ⟨b1s, b1i, b1p, b1c⟩ := Page.settle_zero_ok_projections
    (Page.stepAction
      (Page.stepAction st
        (.recv (.event (Page.functionCallFrame id name rawArgs) (.ok args))))
      (.recv (.event (Page.functionCallFrame id name rawArgs) (.ok args))))
    ⟨id, name, args⟩ [⟨id, name, args⟩] d1 r1 (by simpa using a2p) h1 a2c
  rw [a2s] at b1s
  rw [a2i] at b1i
  rw [a2c] at b1c
  obtain ⟨b2s, b2i, _b2p, _b2c⟩ := Page.settle_zero_ok_projections
    (Page.stepAction
      (Page.stepAction
        (Page.stepAction st
          (.recv (.event (Page.functionCallFrame id name rawArgs) (.ok args))))
        (.recv (.event (Page.functionCallFrame id name rawArgs) (.ok args))))
      (.settle 0 d1))
    ⟨id, name, args⟩ [] d2 r2 b1p h2 b1c
  rw [b1s] at b2s
  rw [b1i] at b2i
  exact ⟨by simpa using b2i, by simpa [List.append_assoc] using b2s, hid1, hid2⟩


/-- Witness for the amended C3 at the spec's sample call (`id "a1"`,
`get_weather`, `location: Tokyo`), settled twice with fixed draws. -/
theorem c3_duplicate_id_amended_witness :
    Page.readyChannelState.pending = [] ∧
    Page.readyChannelState.channelOpen = true ∧
    Page.executeFunction Page.sampleCall Page.sampleDraws = .ok Page.sampleOkResult ∧
    ((Page.runActions Page.readyChannelState
        [.recv (.event (Page.functionCallFrame (.str "a1") (.str "get_weather")
            (.str "\x7b\"location\":\"Tokyo\"\x7d")) (.ok Page.sampleArgs)),
         .recv (.event (Page.functionCallFrame (.str "a1") (.str "get_weather")
            (.str "\x7b\"location\":\"Tokyo\"\x7d")) (.ok Page.sampleArgs)),
         .settle 0 Page.sampleDraws, .settle 0 Page.sampleDraws]).invocations
      = Page.readyChannelState.invocations ++ [Page.sampleCall, Page.sampleCall] ∧
    (Page.runActions Page.readyChannelState
        [.recv (.event (Page.functionCallFrame (.str "a1") (.str "get_weather")
            (.str "\x7b\"location\":\"Tokyo\"\x7d")) (.ok Page.sampleArgs)),
         .recv (.event (Page.functionCallFrame (.str "a1") (.str "get_weather")
            (.str "\x7b\"location\":\"Tokyo\"\x7d")) (.ok Page.sampleArgs)),
         .settle 0 Page.sampleDraws, .settle 0 Page.sampleDraws]).sent
      = Page.readyChannelState.sent
        ++ [Page.mkResponse Page.sampleOkResult, Page.mkResponse Page.sampleOkResult] ∧
    JsVal.str "a1" = .str "a1" ∧ JsVal.str "a1" = .str "a1") :=
  ⟨rfl, rfl, rfl,
   c3_duplicate_id_amended Page.readyChannelState (.str "a1") (.str "get_weather")
     (.str "\x7b\"location\":\"Tokyo\"\x7d") Page.sampleArgs
     Page.sampleDraws Page.sampleDraws _ _ rfl rfl rfl rfl⟩

namespace Page

lemma settle_zero_reject_projections (st : ClientState) (fc : FunctionCall)
    (rest : List FunctionCall) (d : RandomDraws)
    (hp : st.pending = fc :: rest) (hr : executeFunction fc d = .error ()) :
    (stepAction st (.settle 0 d)).sent = st.sent ∧
    (stepAction st (.settle 0 d)).debugLog
      = st.debugLog ++ [.executeFunctionError] ∧
    (stepAction st (.settle 0 d)).completedFunctions = st.completedFunctions := by
  rw [settle_zero st fc rest d hp,
    resolvePending_reject { st with pending := rest } fc d hr]
  exact ⟨rfl, rfl, rfl⟩

lemma recv_call_debugLog (st : ClientState) (id name rawArgs args : JsVal) :
    (stepAction st
        (.recv (.event (functionCallFrame id name rawArgs) (.ok args)))).debugLog
      = st.debugLog ++
        [.receivedEvent, .functionCallReceived, .executingFunction] := rfl

end Page

/-- C4 counterexample: the well-formed `function-call` event
`id "a1"`, `name "get_weather"`, `arguments "null"` (a valid JSON text, whose
inner parse yields `null`) is dispatched while the channel is open; the
invocation starts but the argument destructuring throws, the promise rejects,
the `.catch` only logs — ZERO `function-response` frames are ever emitted,
not exactly one. -/
theorem c4_zero_response_counterexample :
    (Page.runActions Page.readyChannelState
        [.recv Page.nullArgsCallFrame, .settle 0 Page.sampleDraws]).sent = [] ∧
    (Page.runActions Page.readyChannelState
        [.recv Page.nullArgsCallFrame, .settle 0 Page.sampleDraws]).invocations.length = 1 ∧
    (Page.runActions Page.readyChannelState
        [.recv Page.nullArgsCallFrame, .settle 0 Page.sampleDraws]).debugLog.getLast?
      = some .executeFunctionError :=
  ⟨rfl, rfl, rfl⟩

/-- C4 amended: a dispatched `function-call` whose invocation RESOLVES (which
for `get_weather` requires the parsed arguments not to be `null`; for any
other name it is automatic) leads, once it settles with the channel open, to
exactly one emitted `function-response` carrying the same id — with
`result.result` as payload on success and an `{error}` object when the error
field is a nonempty string; but an invocation whose promise REJECTS (e.g.
`get_weather` with arguments `null`) emits NO response at all: the failure is
only logged. -/
theorem c4_response_emission_amended :
    (∀ (st : Page.ClientState) (id name rawArgs args : JsVal)
        (d : Page.RandomDraws) (r : Page.FunctionResult),
      st.pending = [] → st.channelOpen = true →
      Page.executeFunction ⟨id, name, args⟩ d = .ok r →
      (Page.runActions st
          [.recv (.event (Page.functionCallFrame id name rawArgs) (.ok args)),
           .settle 0 d]).sent
        = st.sent ++ [Page.mkResponse r] ∧ r.id = id ∧ r.name = name) ∧
    (∀ (st : Page.ClientState) (id rawArgs : JsVal) (d : Page.RandomDraws),
      st.pending = [] →
      (Page.runActions st
          [.recv (.event (Page.functionCallFrame id (.str "get_weather") rawArgs)
             (.ok .null)),
           .settle 0 d]).sent = st.sent) := by
  constructor
  · intro st id name rawArgs args d r hp hc hr
    obtain ⟨hid, hname⟩ := Page.executeFunction_ok_fields _ d r hr
    obtain ⟨a1p, a1s, _a1i, a1c⟩ := Page.recv_call_projections st id name rawArgs args
    rw [hp] at a1p
    rw [hc] at a1c
    obtain ⟨b1s, _b1i, _b1p, _b1c⟩ := Page.settle_zero_ok_projections
      (Page.stepAction st
        (.recv (.event (Page.functionCallFrame id name rawArgs) (.ok args))))
      ⟨id, name, args⟩ [] d r (by simpa using a1p) hr a1c
    rw [a1s] at b1s
    exact ⟨b1s, hid, hname⟩
  · intro st id rawArgs d hp
    obtain ⟨a1p, a1s, _a1i, _a1c⟩ := Page.recv_call_projections st id
      (.str "get_weather") rawArgs .null
    rw [hp] at a1p
    obtain ⟨b1s, _b1l, _b1c⟩ := Page.settle_zero_reject_projections
      (Page.stepAction st
        (.recv (.event (Page.functionCallFrame id (.str "get_weather") rawArgs)
          (.ok .null))))
      ⟨id, .str "get_weather", .null⟩ [] d (by simpa using a1p) rfl
    rw [a1s] at b1s
    exact b1s

/-- Witness for the amended C4: the resolving case at the spec's sample call,
and the rejecting case at the `arguments "null"` call. -/
theorem c4_response_emission_amended_witness :
    (Page.readyChannelState.pending = [] ∧
     Page.readyChannelState.channelOpen = true ∧
     Page.executeFunction Page.sampleCall Page.sampleDraws = .ok Page.sampleOkResult ∧
     (Page.runActions Page.readyChannelState
         [.recv (.event (Page.functionCallFrame (.str "a1") (.str "get_weather")
             (.str "\x7b\"location\":\"Tokyo\"\x7d")) (.ok Page.sampleArgs)),
          .settle 0 Page.sampleDraws]).sent
       = Page.readyChannelState.sent ++ [Page.mkResponse Page.sampleOkResult] ∧
     Page.sampleOkResult.id = .str "a1" ∧
     Page.sampleOkResult.name = .str "get_weather") ∧
    (Page.runActions Page.readyChannelState
        [.recv (.event (Page.functionCallFrame (.str "a1") (.str "get_weather")
            (.str "null")) (.ok .null)),
         .settle 0 Page.sampleDraws]).sent = Page.readyChannelState.sent :=
  ⟨⟨rfl, rfl, rfl,
    c4_response_emission_amended.1 Page.readyChannelState (.str "a1")
      (.str "get_weather") (.str "\x7b\"location\":\"Tokyo\"\x7d")
      Page.sampleArgs Page.sampleDraws Page.sampleOkResult rfl rfl rfl⟩,
   c4_response_emission_amended.2 Page.readyChannelState (.str "a1")
     (.str "null") Page.sampleDraws rfl⟩

lemma append_ne_empty_left (s t : String) (h : s.data ≠ []) : s ++ t ≠ "" := by
  intro he
  apply h
  have hd := congrArg String.data he
  rw [String.data_append] at hd
  exact (List.append_eq_nil.mp hd).1

lemma data_append_ne_nil_left (s t : String) (h : s.data ≠ []) :
    (s ++ t).data ≠ [] := by
  rw [String.data_append]
  intro hc
  exact h (List.append_eq_nil.mp hc).1

namespace Page

lemma mkResponse_error_payload (r : FunctionResult) (e : String)
    (hre : r.error = some e) (hne : e ≠ "") :
    mkResponse r = ⟨r.id, r.name, .obj [("error", .str e)]⟩ := by
  unfold mkResponse
  rw [hre]
  simp [hne]

lemma executeFunction_unknown_name (id args : JsVal) (n : String)
    (d : RandomDraws) (hn : n ≠ "get_weather") :
    executeFunction ⟨id, .str n, args⟩ d
      = .ok ⟨id, .str n, .null, some ("未実装の関数: " ++ n)⟩ := by
  unfold executeFunction
  simp [isStrEq, hn, jsDisplay]

end Page

/-- C5: a `function-call` naming a function with no registered handler yields
an error result and never a thrown exception, and the emitted response carries
an error payload: (1) `FunctionRegistry.execute` on a name absent from the
registry returns the record with `result = null` and the error field set
(`execute` is a total function — nothing propagates); (2) the in-page
`executeFunction` on any name other than `get_weather` resolves (does not
reject) with `result = null` and the error field set; and (3) dispatching such
a call and settling it emits exactly one `function-response` whose payload is
the `{error: …}` object instead of a result. -/
theorem c5_unregistered_name_error (reg : Functions.FunctionRegistry)
    (rfc : Functions.FunctionCall) (st : Page.ClientState)
    (id rawArgs args : JsVal) (n : String) (d : Page.RandomDraws)
    (hreg : Functions.lookupEntry reg rfc.name = none)
    (hn : n ≠ "get_weather") (hp : st.pending = []) (hc : st.channelOpen = true) :
    Functions.FunctionRegistry.execute reg rfc
      = ⟨rfc.id, rfc.name, .null,
         some ("Function '" ++ rfc.name ++ "' not found")⟩ ∧
    Page.executeFunction ⟨id, .str n, args⟩ d
      = .ok ⟨id, .str n, .null, some ("未実装の関数: " ++ n)⟩ ∧
    (Page.runActions st
        [.recv (.event (Page.functionCallFrame id (.str n) rawArgs) (.ok args)),
         .settle 0 d]).sent
      = st.sent
        ++ [⟨id, .str n, .obj [("error", .str ("未実装の関数: " ++ n))]⟩] := by
  refine ⟨?_, Page.executeFunction_unknown_name id args n d hn, ?_⟩
  · unfold Functions.FunctionRegistry.execute
    rw [hreg]
  · obtain ⟨a1p, a1s, _a1i, a1c⟩ := Page.recv_call_projections st id (.str n) rawArgs args
    rw [hp] at a1p
    rw [hc] at a1c
    obtain ⟨b1s, _b1i, _b1p, _b1c⟩ := Page.settle_zero_ok_projections
      (Page.stepAction st
        (.recv (.event (Page.functionCallFrame id (.str n) rawArgs) (.ok args))))
      ⟨id, .str n, args⟩ [] d ⟨id, .str n, .null, some ("未実装の関数: " ++ n)⟩
      (by simpa using a1p) (Page.executeFunction_unknown_name id args n d hn) a1c
    rw [a1s] at b1s
    rw [Page.mkResponse_error_payload _ ("未実装の関数: " ++ n) rfl
      (append_ne_empty_left _ _ (by decide))] at b1s
    exact b1s

/-- Witness for C5: the empty registry and the unknown name `"get_time"`. -/
theorem c5_unregistered_name_error_witness :
    Functions.lookupEntry ([] : Functions.FunctionRegistry) "get_time" = none ∧
    ("get_time" : String) ≠ "get_weather" ∧
    Page.readyChannelState.pending = [] ∧
    Page.readyChannelState.channelOpen = true ∧
    (Functions.FunctionRegistry.execute ([] : Functions.FunctionRegistry)
        ⟨"c7", "get_time", .obj []⟩
      = ⟨"c7", "get_time", .null, some ("Function '" ++ "get_time" ++ "' not found")⟩ ∧
    Page.executeFunction ⟨.str "c7", .str "get_time", .obj []⟩ Page.sampleDraws
      = .ok ⟨.str "c7", .str "get_time", .null, some ("未実装の関数: " ++ "get_time")⟩ ∧
    (Page.runActions Page.readyChannelState
        [.recv (.event (Page.functionCallFrame (.str "c7") (.str "get_time")
            (.str "\x7b\x7d")) (.ok (.obj []))),
         .settle 0 Page.sampleDraws]).sent
      = Page.readyChannelState.sent
        ++ [⟨.str "c7", .str "get_time",
             .obj [("error", .str ("未実装の関数: " ++ "get_time"))]⟩]) :=
  ⟨rfl, by decide, rfl, rfl,
   c5_unregistered_name_error [] ⟨"c7", "get_time", .obj []⟩
     Page.readyChannelState (.str "c7") (.str "\x7b\x7d") (.obj [])
     "get_time" Page.sampleDraws rfl (by decide) rfl rfl⟩

/-- C9: `FunctionRegistry.execute` returns a result whose `id` and `name`
equal the call's, in all three cases (handler resolves, handler rejects, no
handler registered) — and, being a total Lean function over all registries,
calls and handler outcomes, it never throws. -/
theorem c9_execute_echoes_id_name (reg : Functions.FunctionRegistry)
    (fc : Functions.FunctionCall) :
    (Functions.FunctionRegistry.execute reg fc).id = fc.id ∧
    (Functions.FunctionRegistry.execute reg fc).name = fc.name := by
  unfold Functions.FunctionRegistry.execute
  split
  · exact ⟨rfl, rfl⟩
  · split
    · exact ⟨rfl, rfl⟩
    · exact ⟨rfl, rfl⟩

/-- C7: when the signaling response is non-2xx, `getRemoteDescription` fails
with the error carrying the remote status code and response body; the worker
handler issues exactly one request (no retry) and posts exactly one `ERROR`
message (and no remote description); the main thread's `ERROR` case sets the
session status to `"Error"` with that message as the last error, leaving the
conversation messages untouched — in particular still empty from the initial
state. -/
theorem c7_signaling_failure (offer token : String)
    (resp : RtcWorker.HttpResponse) (st : Page.ClientState)
    (hfail : resp.ok = false) :
    RtcWorker.getRemoteDescription offer token resp
      = .error (RtcWorker.signalingErrorMessage resp.status resp.body) ∧
    (RtcWorker.handleGetRemoteDescription offer token resp).1.length = 1 ∧
    ((RtcWorker.handleGetRemoteDescription offer token resp).2.filter
        RtcWorker.WorkerPost.isErrorPost)
      = [.errorPost (RtcWorker.signalingErrorMessage resp.status resp.body)] ∧
    ((RtcWorker.handleGetRemoteDescription offer token resp).2.filter
        RtcWorker.WorkerPost.isRemoteDescription) = [] ∧
    (Page.onWorkerError st
        (some (RtcWorker.signalingErrorMessage resp.status resp.body))).status
      = "Error" ∧
    (Page.onWorkerError st
        (some (RtcWorker.signalingErrorMessage resp.status resp.body))).error
      = some (RtcWorker.signalingErrorMessage resp.status resp.body) ∧
    (Page.onWorkerError st
        (some (RtcWorker.signalingErrorMessage resp.status resp.body))).messages
      = st.messages ∧
    (Page.onWorkerError Page.initialState
        (some (RtcWorker.signalingErrorMessage resp.status resp.body))).messages
      = [] := by
  have hmsg : RtcWorker.signalingErrorMessage resp.status resp.body ≠ "" := by
    unfold RtcWorker.signalingErrorMessage
    exact append_ne_empty_left _ _
      (data_append_ne_nil_left _ _ (data_append_ne_nil_left _ _ (by decide)))
  have hfailed : RtcWorker.getRemoteDescription offer token resp
      = .error (RtcWorker.signalingErrorMessage resp.status resp.body) := by
    unfold RtcWorker.getRemoteDescription
    rw [hfail]
    rfl
  refine ⟨hfailed, rfl, ?_, ?_, rfl, ?_, rfl, rfl⟩
  · unfold RtcWorker.handleGetRemoteDescription
    rw [hfailed]
    rfl
  · unfold RtcWorker.handleGetRemoteDescription
    rw [hfailed]
    rfl
  · unfold Page.onWorkerError
    simp [hmsg]

/-- Witness for C7: an HTTP 401 response with body `"Unauthorized"`. -/
theorem c7_signaling_failure_witness :
    (RtcWorker.HttpResponse.mk false 401 "Unauthorized").ok = false ∧
    (RtcWorker.getRemoteDescription "sdp-offer" "tok"
        (RtcWorker.HttpResponse.mk false 401 "Unauthorized")
      = .error (RtcWorker.signalingErrorMessage 401 "Unauthorized") ∧
    (RtcWorker.handleGetRemoteDescription "sdp-offer" "tok"
        (RtcWorker.HttpResponse.mk false 401 "Unauthorized")).1.length = 1 ∧
    ((RtcWorker.handleGetRemoteDescription "sdp-offer" "tok"
        (RtcWorker.HttpResponse.mk false 401 "Unauthorized")).2.filter
        RtcWorker.WorkerPost.isErrorPost)
      = [.errorPost (RtcWorker.signalingErrorMessage 401 "Unauthorized")] ∧
    ((RtcWorker.handleGetRemoteDescription "sdp-offer" "tok"
        (RtcWorker.HttpResponse.mk false 401 "Unauthorized")).2.filter
        RtcWorker.WorkerPost.isRemoteDescription) = [] ∧
    (Page.onWorkerError Page.initialState
        (some (RtcWorker.signalingErrorMessage 401 "Unauthorized"))).status
      = "Error" ∧
    (Page.onWorkerError Page.initialState
        (some (RtcWorker.signalingErrorMessage 401 "Unauthorized"))).error
      = some (RtcWorker.signalingErrorMessage 401 "Unauthorized") ∧
    (Page.onWorkerError Page.initialState
        (some (RtcWorker.signalingErrorMessage 401 "Unauthorized"))).messages
      = Page.initialState.messages ∧
    (Page.onWorkerError Page.initialState
        (some (RtcWorker.signalingErrorMessage 401 "Unauthorized"))).messages
      = []) :=
  ⟨rfl, c7_signaling_failure "sdp-offer" "tok"
    (RtcWorker.HttpResponse.mk false 401 "Unauthorized") Page.initialState rfl⟩

namespace Functions

lemma getAllDefinitions_cons (k : String) (e : RegistryEntry)
    (rest : FunctionRegistry) :
    FunctionRegistry.getAllDefinitions ((k, e) :: rest)
      = e.definition :: FunctionRegistry.getAllDefinitions rest := rfl

lemma countName_cons (x : FunctionDefinition) (ds : List FunctionDefinition)
    (n : String) :
    countName (x :: ds) n
      = if x.name = n then countName ds n + 1 else countName ds n := by
  by_cases hx : x.name = n <;> simp [countName, List.filter_cons, hx]

lemma mapSetEntry_idem (m : FunctionRegistry) (k : String)
    (e1 e2 : RegistryEntry) :
    mapSetEntry (mapSetEntry m k e1) k e2 = mapSetEntry m k e2 := by
  induction m with
  | nil => simp [mapSetEntry]
  | cons p rest ih =>
      obtain ⟨k', e'⟩ := p
      by_cases hk : k' = k <;> simp [mapSetEntry, hk, ih]

lemma lookup_mapSetEntry_self (m : FunctionRegistry) (k : String)
    (e : RegistryEntry) :
    lookupEntry (mapSetEntry m k e) k = some e := by
  induction m with
  | nil => simp [mapSetEntry, lookupEntry]
  | cons p rest ih =>
      obtain ⟨k', e'⟩ := p
      by_cases hk : k' = k <;> simp [mapSetEntry, lookupEntry, hk, ih]

lemma mem_keys_mapSetEntry (m : FunctionRegistry) (k : String)
    (e : RegistryEntry) (a : String)
    (ha : a ∈ (mapSetEntry m k e).map Prod.fst) :
    a ∈ m.map Prod.fst ∨ a = k := by
  induction m with
  | nil => simpa [mapSetEntry] using ha
  | cons p rest ih =>
      obtain ⟨k', e'⟩ := p
      by_cases hk : k' = k
      · rw [mapSetEntry] at ha
        simp only [if_pos hk, List.map_cons, List.mem_cons] at ha
        rcases ha with h | h
        · exact Or.inl (by simp [h])
        · exact Or.inl (by simp [h])
      · rw [mapSetEntry] at ha
        simp only [if_neg hk, List.map_cons, List.mem_cons] at ha
        rcases ha with h | h
        · exact Or.inl (by simp [h])
        · rcases ih h with h1 | h2
          · exact Or.inl (by simp [h1])
          · exact Or.inr h2

lemma keys_nodup_mapSetEntry (m : FunctionRegistry) (k : String)
    (e : RegistryEntry) (hnd : (m.map Prod.fst).Nodup) :
    ((mapSetEntry m k e).map Prod.fst).Nodup := by
  induction m with
  | nil => simp [mapSetEntry]
  | cons p rest ih =>
      obtain ⟨k', e'⟩ := p
      rw [List.map_cons, List.nodup_cons] at hnd
      by_cases hk : k' = k
      · rw [mapSetEntry, if_pos hk, List.map_cons, List.nodup_cons]
        exact ⟨by simpa [← hk] using hnd.1, hnd.2⟩
      · rw [mapSetEntry, if_neg hk, List.map_cons, List.nodup_cons]
        refine ⟨?_, ih hnd.2⟩
        intro hmem
        rcases mem_keys_mapSetEntry rest k e k' hmem with h1 | h2
        · exact hnd.1 h1
        · exact hk h2

lemma countName_zero (m : FunctionRegistry) (n : String)
    (hwf : ∀ p ∈ m, (p.2 : RegistryEntry).definition.name = p.1)
    (hmem : n ∉ m.map Prod.fst) :
    countName (FunctionRegistry.getAllDefinitions m) n = 0 := by
  induction m with
  | nil => rfl
  | cons p rest ih =>
      obtain ⟨k, e⟩ := p
      have hk : e.definition.name = k := hwf (k, e) (by simp)
      have hne : ¬(e.definition.name = n) := by
        rw [hk]
        intro h
        exact hmem (by simp [h])
      have hrest : countName (FunctionRegistry.getAllDefinitions rest) n = 0 :=
        ih (fun q hq => hwf q (by simp [hq])) (fun h => hmem (by simp [h]))
      rw [getAllDefinitions_cons, countName_cons, if_neg hne]
      exact hrest

lemma countName_mapSetEntry_self (m : FunctionRegistry)
    (d : FunctionDefinition) (h : FunctionHandler)
    (hwf : ∀ p ∈ m, (p.2 : RegistryEntry).definition.name = p.1)
    (hnd : (m.map Prod.fst).Nodup) :
    countName
        (FunctionRegistry.getAllDefinitions (mapSetEntry m d.name ⟨d, h⟩))
        d.name = 1 := by
  induction m with
  | nil => simp [mapSetEntry, getAllDefinitions_cons, countName_cons]; rfl
  | cons p rest ih =>
      obtain ⟨k, e⟩ := p
      rw [List.map_cons, List.nodup_cons] at hnd
      by_cases hk : k = d.name
      · rw [mapSetEntry, if_pos hk, getAllDefinitions_cons, countName_cons,
          if_pos rfl]
        have hzero : countName (FunctionRegistry.getAllDefinitions rest) d.name = 0 :=
          countName_zero rest d.name (fun q hq => hwf q (by simp [hq]))
            (by rw [← hk]; exact hnd.1)
        rw [hzero]
      · rw [mapSetEntry, if_neg hk, getAllDefinitions_cons, countName_cons,
          if_neg (by rw [hwf (k, e) (by simp)]; exact hk)]
        exact ih (fun q hq => hwf q (by simp [hq])) hnd.2

end Functions

/-- C10: registering under an already-registered name overwrites the earlier
entry (last-write-wins): `register d1 h1; register d2 h2` with
`d1.name = d2.name` produces the same registry as `register d2 h2` alone;
afterwards `getAllDefinitions` contains exactly one definition with that name
(the newer `d2`), the key set stays duplicate-free, and `execute` on a call
with that name dispatches exactly as the singleton registry holding only the
newer `(d2, h2)` entry does. -/
theorem c10_register_overwrites (reg : Functions.FunctionRegistry)
    (d1 d2 : Functions.FunctionDefinition)
    (h1 h2 : Functions.FunctionHandler)
    (hname : d1.name = d2.name)
    (hwf : ∀ p ∈ reg, (p.2 : Functions.RegistryEntry).definition.name = p.1)
    (hnd : (reg.map Prod.fst).Nodup) :
    Functions.FunctionRegistry.register
        (Functions.FunctionRegistry.register reg d1 h1) d2 h2
      = Functions.FunctionRegistry.register reg d2 h2 ∧
    Functions.countName
        (Functions.FunctionRegistry.getAllDefinitions
          (Functions.FunctionRegistry.register
            (Functions.FunctionRegistry.register reg d1 h1) d2 h2))
        d2.name = 1 ∧
    ((Functions.FunctionRegistry.register
        (Functions.FunctionRegistry.register reg d1 h1) d2 h2).map
      Prod.fst).Nodup ∧
    ∀ fc : Functions.FunctionCall, fc.name = d2.name →
      Functions.FunctionRegistry.execute
          (Functions.FunctionRegistry.register
            (Functions.FunctionRegistry.register reg d1 h1) d2 h2) fc
        = Functions.FunctionRegistry.execute [(d2.name, ⟨d2, h2⟩)] fc := by
  have hcollapse :
      Functions.FunctionRegistry.register
          (Functions.FunctionRegistry.register reg d1 h1) d2 h2
        = Functions.FunctionRegistry.register reg d2 h2 := by
    unfold Functions.FunctionRegistry.register
    rw [hname]
    exact Functions.mapSetEntry_idem reg d2.name ⟨d1, h1⟩ ⟨d2, h2⟩
  refine ⟨hcollapse, ?_, ?_, ?_⟩
  · rw [hcollapse]
    exact Functions.countName_mapSetEntry_self reg d2 h2 hwf hnd
  · rw [hcollapse]
    exact Functions.keys_nodup_mapSetEntry reg d2.name ⟨d2, h2⟩ hnd
  · intro fc hfc
    rw [hcollapse]
    unfold Functions.FunctionRegistry.execute
    rw [hfc]
    rw [show Functions.lookupEntry
        (Functions.FunctionRegistry.register reg d2 h2) d2.name
      = some ⟨d2, h2⟩ from Functions.lookup_mapSetEntry_self reg d2.name ⟨d2, h2⟩]
    rw [show Functions.lookupEntry [(d2.name, ⟨d2, h2⟩)] d2.name
      = some ⟨d2, h2⟩ by simp [Functions.lookupEntry]]

/-- Witness for C10: registering two definitions named `get_weather` into the
empty registry. -/
theorem c10_register_overwrites_witness :
    Functions.sampleDef1.name = Functions.sampleDef2.name ∧
    (∀ p ∈ ([] : Functions.FunctionRegistry),
      (p.2 : Functions.RegistryEntry).definition.name = p.1) ∧
    ((([] : Functions.FunctionRegistry)).map Prod.fst).Nodup ∧
    (Functions.FunctionRegistry.register
        (Functions.FunctionRegistry.register [] Functions.sampleDef1
          Functions.sampleHandler1)
        Functions.sampleDef2 Functions.sampleHandler2
      = Functions.FunctionRegistry.register [] Functions.sampleDef2
          Functions.sampleHandler2 ∧
    Functions.countName
        (Functions.FunctionRegistry.getAllDefinitions
          (Functions.FunctionRegistry.register
            (Functions.FunctionRegistry.register [] Functions.sampleDef1
              Functions.sampleHandler1)
            Functions.sampleDef2 Functions.sampleHandler2))
        Functions.sampleDef2.name = 1 ∧
    ((Functions.FunctionRegistry.register
        (Functions.FunctionRegistry.register [] Functions.sampleDef1
          Functions.sampleHandler1)
        Functions.sampleDef2 Functions.sampleHandler2).map Prod.fst).Nodup ∧
    ∀ fc : Functions.FunctionCall, fc.name = Functions.sampleDef2.name →
      Functions.FunctionRegistry.execute
          (Functions.FunctionRegistry.register
            (Functions.FunctionRegistry.register [] Functions.sampleDef1
              Functions.sampleHandler1)
            Functions.sampleDef2 Functions.sampleHandler2) fc
        = Functions.FunctionRegistry.execute
            [(Functions.sampleDef2.name,
              ⟨Functions.sampleDef2, Functions.sampleHandler2⟩)] fc) :=
  ⟨rfl, by simp, by simp,
   c10_register_overwrites [] Functions.sampleDef1 Functions.sampleDef2
     Functions.sampleHandler1 Functions.sampleHandler2 rfl (by simp) (by simp)⟩
